import Mathlib

/-!
Shallow embedding of the Seshat-Agent processing pipeline.

The development models, directly from the Python sources:
  * string helpers matching the Python `str` operations the code relies on,
  * `SummarizerService.analyze_transcript` (src/summarizer_service.py),
  * the Notion block builders (src/notion_handler.py),
  * `Orchestrator.process_single_audio_file` / `process_folder`
    (src/orchestrator.py), with the external capabilities (transcription,
    summarization, page creation) passed in as oracles, and
  * `Transcriber.process_recording` (src/transcriber.py).

External effects (model calls, HTTP, the filesystem) are represented by
explicit oracle functions and by state records passed in as arguments; every
function additionally reports how many times it invoked each oracle, so that
"does not call the model / the service" claims are expressible.
-/

/-- Python whitespace predicate used by `str.strip()` (ASCII range of
`str.isspace`; the pipeline only ever strips ASCII whitespace). -/
def isPySpace (c : Char) : Bool :=
  c == ' ' || c == '\t' || c == '\n' || c == '\r' || c == '\x0B' || c == '\x0C'

/-- Python `s.strip()` with no arguments: drop leading and trailing
whitespace characters. -/
def pyStrip (s : String) : String :=
  String.mk (((s.toList.dropWhile isPySpace).reverse.dropWhile isPySpace).reverse)

/-- Python `s.lstrip('- ')`: drop the longest leading run of characters drawn
from the set `{'-', ' '}`. -/
def lstripDashSpace (s : String) : String :=
  String.mk (s.toList.dropWhile (fun c => c == '-' || c == ' '))

/-- Test whether the first list is an initial segment of the second
(executable by structural recursion, so kernel reduction can evaluate it). -/
def leadsWith : List Char → List Char → Bool
  | [], _ => true
  | _ :: _, [] => false
  | a :: as, b :: bs => a == b && leadsWith as bs

/-- Occurrence of `pat` as a contiguous sublist of the second argument. -/
def occursIn (pat : List Char) : List Char → Bool
  | [] => pat.isEmpty
  | c :: cs => leadsWith pat (c :: cs) || occursIn pat cs

/-- Python `sub in s` substring containment. -/
def pyContains (s sub : String) : Bool :=
  occursIn sub.toList s.toList

/-- Python `s.startswith(pre)`. -/
def pyStartsWith (s pre : String) : Bool :=
  leadsWith pre.toList s.toList

/-- Python `s.lower()` restricted to ASCII case mapping (all comparison
constants in the sources are ASCII). -/
def pyLower (s : String) : String :=
  String.mk (s.toList.map Char.toLower)

/-- Python `s.split(sep)` with an explicit one-character separator: splits at
every occurrence, keeping empty fields, so the empty string yields `[""]`. -/
def splitOnChar (sep : Char) : List Char → List (List Char)
  | [] => [[]]
  | c :: cs =>
    if c = sep then [] :: splitOnChar sep cs
    else
      match splitOnChar sep cs with
      | [] => [[c]]
      | l :: ls => (c :: l) :: ls

/-- Python `s.split(sep)` on `String`. -/
def pySplit (s : String) (sep : Char) : List String :=
  (splitOnChar sep s.toList).map String.mk

/-! ## SummarizerService (src/summarizer_service.py) -/

/-- Result dictionary of `SummarizerService.analyze_transcript`
(src/summarizer_service.py lines 166-170). -/
structure AnalysisResult where
  summary : String
  action_items : List String
  original_filename : String
  deriving Repr, DecidableEq

/-- Summary prompt of `analyze_transcript` (src/summarizer_service.py lines
108-118).  The prose is abridged; none of the verified properties depend on
the prompt wording, only on the fact that a first model call is issued with
some prompt built from the filename and transcript. -/
def summary_prompt (original_filename transcript : String) : String :=
  "Original Filename: " ++ original_filename ++ "\nTranscript:\n---\n" ++
    transcript ++ "\n---\nprovide a concise summary\nSummary:\n"

/-- Action-items prompt of `analyze_transcript` (src/summarizer_service.py
lines 121-133), abridged like `summary_prompt`. -/
def action_items_prompt (original_filename transcript : String) : String :=
  "Original Filename: " ++ original_filename ++ "\nTranscript:\n---\n" ++
    transcript ++ "\n---\nidentify any specific action items\nAction Items:\n-\n"

/-- Action-item post-parsing block of `analyze_transcript`
(src/summarizer_service.py lines 151-158), applied to the already-stripped
raw model output:

```python
if raw and raw.lower() not in ["no action items identified.", "no action items found."]:
    l = [item.strip() for item in raw.split('\n') if item.strip().startswith('-')]
    l = [item.lstrip('- ').strip() for item in l if item.lstrip('- ').strip()]
elif "no action items identified" in raw.lower() or "no action items found" in raw.lower():
    l = []
else:
    l = []
```
-/
def parse_action_items (raw : String) : List String :=
  if raw ≠ "" ∧ pyLower raw ≠ "no action items identified." ∧
      pyLower raw ≠ "no action items found." then
    let l1 := ((pySplit raw '\n').map pyStrip).filter (fun item => pyStartsWith item "-")
    (l1.map (fun item => pyStrip (lstripDashSpace item))).filter (fun item => item ≠ "")
  else if pyContains (pyLower raw) "no action items identified" ||
      pyContains (pyLower raw) "no action items found" then
    []
  else
    []

/-- Model of `SummarizerService.analyze_transcript` (src/summarizer_service.py
lines 80-170).  `gen` is the Gemini oracle (`_generate_content_with_gemini`):
`Except.ok` is a returned text, `Except.error` a raised `RuntimeError`
(which `analyze_transcript` catches per call, leaving the corresponding field
at its default).  The second component counts how many times `gen` was
invoked. -/
def analyze_transcript (gen : String → Except String String)
    (transcript original_filename : String) : AnalysisResult × Nat :=
  if transcript = "" ∨ pyStrip transcript = "" then
    ({ summary := "", action_items := [], original_filename := original_filename }, 0)
  else
    let summary_text :=
      match gen (summary_prompt original_filename transcript) with
      | .ok r => pyStrip r
      | .error _ => ""
    let action_items_list :=
      match gen (action_items_prompt original_filename transcript) with
      | .ok r => parse_action_items (pyStrip r)
      | .error _ => []
    ({ summary := summary_text, action_items := action_items_list,
       original_filename := original_filename }, 2)

/-! ### Claims C3 and C4 -/

/-- C3, counterexample: on the raw output
`"- Follow up with Bob\n- no bullet here\n- Send report"` the parser keeps
all three lines (each one carries a leading bullet marker, including the
middle line), so the result is NOT the claimed two-element list. -/
theorem action_items_cex :
    parse_action_items "- Follow up with Bob\n- no bullet here\n- Send report" =
      ["Follow up with Bob", "no bullet here", "Send report"] ∧
    (["Follow up with Bob", "no bullet here", "Send report"] : List String) ≠
      ["Follow up with Bob", "Send report"] := by
  constructor
  · decide
  · decide

/-- C3, amended: with the middle line actually lacking a bullet marker
(`"- Follow up with Bob\nno bullet here\n- Send report"`), the parser keeps
only the bulleted lines, strips the bullet prefix, and drops blank entries,
returning `["Follow up with Bob", "Send report"]`; a raw output of
`"No action items identified."` maps to the empty list rather than a parse
error; and the same holds in context through `analyze_transcript`. -/
theorem action_items_parse_amended :
    parse_action_items "- Follow up with Bob\nno bullet here\n- Send report" =
      ["Follow up with Bob", "Send report"] ∧
    parse_action_items "No action items identified." = [] ∧
    (analyze_transcript
        (fun _ => Except.ok "- Follow up with Bob\nno bullet here\n- Send report")
        "some transcript" "f.wav").1.action_items =
      ["Follow up with Bob", "Send report"] := by
  refine ⟨by decide, by decide, by decide⟩

/-- C4: for every empty or whitespace-only transcript `t` and every filename
`f`, `analyze_transcript` returns exactly
`{summary := "", action_items := [], original_filename := f}` and performs
zero model calls, whatever the model oracle is (so it is total on degenerate
input and never invokes the model there). -/
theorem analyze_empty_short_circuit (gen : String → Except String String)
    (t f : String) (h : pyStrip t = "") :
    analyze_transcript gen t f =
      ({ summary := "", action_items := [], original_filename := f }, 0) := by
  unfold analyze_transcript
  rw [if_pos (Or.inr h)]

/-- C4 witness: concrete whitespace-only transcript. -/
theorem analyze_empty_short_circuit_witness :
    pyStrip "   " = "" ∧
    analyze_transcript (fun _ => Except.ok "ignored") "   " "f.wav" =
      ({ summary := "", action_items := [], original_filename := "f.wav" }, 0) :=
  ⟨by decide, analyze_empty_short_circuit (fun _ => Except.ok "ignored") "   " "f.wav" (by decide)⟩

/-! ## NotionHandler block builders (src/notion_handler.py) -/

/-- One element of a Notion `rich_text` array: the text content plus an
optional link, as produced by `NotionHandler._rich_text_object`
(src/notion_handler.py lines 58-62). -/
structure RichTextItem where
  content : String
  link : Option String
  deriving Repr

/-- Notion content blocks produced by the handler's helper methods.  The
`color` field of a paragraph is `Option String` because some code paths emit
the JSON key `"color": "default"` and others omit it entirely. -/
inductive Block where
  | paragraph (rich_text : List RichTextItem) (color : Option String)
  | toggle (rich_text : List RichTextItem) (color : String) (children : List Block)

/-- Model of `NotionHandler._rich_text_object` (src/notion_handler.py lines
58-62): a singleton list holding the text content and the optional link. -/
def rich_text_object (text_content : String) (link_url : Option String) : List RichTextItem :=
  [{ content := text_content, link := link_url }]

/-- Model of `NotionHandler._paragraph` (src/notion_handler.py lines 74-82):
an empty body is replaced by a single-space rich text (without link or color
keys), because the Notion API rejects empty paragraph content. -/
def paragraph (text_content : String) (link_url : Option String) : Block :=
  if text_content = "" then
    Block.paragraph [{ content := " ", link := none }] none
  else
    Block.paragraph (rich_text_object text_content link_url) (some "default")

/-- Fuel-indexed chunking loop: `chunksFuel n fuel text` cuts `text` into
consecutive `n`-sized slices as long as fuel remains.  With `fuel =
text.length` and `n > 0` the fuel never runs out, and the result equals the
Python comprehension `[text[i:i+n] for i in range(0, len(text), n)]` of
`NotionHandler._split_text_into_chunks`; fuel is structural-recursion
bookkeeping only. -/
def chunksFuel (n : Nat) : Nat → List Char → List (List Char)
  | 0, _ => []
  | _ + 1, [] => []
  | fuel + 1, c :: cs => (c :: cs).take n :: chunksFuel n fuel ((c :: cs).drop n)

/-- Model of `NotionHandler._split_text_into_chunks` (src/notion_handler.py
lines 101-103) on the underlying character list.  (Python's `range` with step
0 raises; the sources only ever call this with the positive default 2000.) -/
def split_text_into_chunks_list (text : List Char) (chunk_size : Nat) : List (List Char) :=
  chunksFuel chunk_size text.length text

/-- Model of `NotionHandler._split_text_into_chunks` on `String`. -/
def split_text_into_chunks (text : String) (chunk_size : Nat) : List String :=
  (split_text_into_chunks_list text.toList chunk_size).map String.mk

/-- Model of `NotionHandler._toggle_block_with_text_content`
(src/notion_handler.py lines 105-119): the content text is chunked with the
default size 2000; an empty chunk list (empty content) is replaced by the
singleton `[" "]`; each chunk becomes an inline paragraph block (rich text
only, no color key) nested as a child of the toggle. -/
def toggle_block_with_text_content (heading_text content_text : String) : Block :=
  let content_chunks :=
    let cs := split_text_into_chunks content_text 2000
    if cs = [] then [" "] else cs
  Block.toggle (rich_text_object heading_text none) "default"
    (content_chunks.map (fun chunk => Block.paragraph (rich_text_object chunk none) none))

/-! ### Chunking lemmas -/

theorem chunksFuel_nil (n fuel : Nat) : chunksFuel n fuel [] = [] := by
  cases fuel <;> rfl

theorem chunksFuel_join (n : Nat) (hn : 0 < n) :
    ∀ (fuel : Nat) (text : List Char), text.length ≤ fuel →
      (chunksFuel n fuel text).flatten = text := by
  intro fuel
  induction fuel with
  | zero =>
    intro text h
    have : text = [] := List.length_eq_zero.mp (Nat.le_zero.mp h)
    subst this
    rfl
  | succ f ih =>
    intro text h
    cases text with
    | nil => rfl
    | cons c cs =>
      have hlen : ((c :: cs).drop n).length ≤ f := by
        simp only [List.length_drop, List.length_cons] at *
        omega
      show ((c :: cs).take n :: chunksFuel n f ((c :: cs).drop n)).flatten = c :: cs
      rw [List.flatten_cons, ih _ hlen]
      exact List.take_append_drop n (c :: cs)

theorem chunksFuel_mem (n : Nat) (hn : 0 < n) :
    ∀ (fuel : Nat) (text : List Char),
      ∀ c ∈ chunksFuel n fuel text, c.length ≤ n ∧ c ≠ [] := by
  intro fuel
  induction fuel with
  | zero => intro text c hc; cases hc
  | succ f ih =>
    intro text c hc
    cases text with
    | nil => cases hc
    | cons a as =>
      rcases List.mem_cons.mp hc with hc | hc
      · subst hc
        constructor
        · simp only [List.length_take, List.length_cons]
          omega
        · have hpos : 0 < ((a :: as).take n).length := by
            simp only [List.length_take, List.length_cons]
            omega
          exact List.ne_nil_of_length_pos hpos
      · exact ih _ _ hc

theorem chunksFuel_dropLast (n : Nat) (hn : 0 < n) :
    ∀ (fuel : Nat) (text : List Char), text.length ≤ fuel →
      ∀ c ∈ (chunksFuel n fuel text).dropLast, c.length = n := by
  intro fuel
  induction fuel with
  | zero => intro text h c hc; cases text <;> cases hc
  | succ f ih =>
    intro text h c hc
    cases text with
    | nil => cases hc
    | cons a as =>
      have hstep : chunksFuel n (f + 1) (a :: as) =
          (a :: as).take n :: chunksFuel n f ((a :: as).drop n) := rfl
      rw [hstep] at hc
      rcases hrest : chunksFuel n f ((a :: as).drop n) with _ | ⟨r, rs⟩
      · rw [hrest] at hc
        cases hc
      · rw [hrest] at hc
        have hne : r :: rs ≠ [] := by simp
        rw [List.dropLast_cons_of_ne_nil hne] at hc
        have hn_le : n ≤ (a :: as).length := by
          by_contra hlt
          have hdrop : (a :: as).drop n = [] := by
            apply List.drop_eq_nil_of_le
            omega
          rw [hdrop, chunksFuel_nil] at hrest
          exact absurd hrest.symm (by simp)
        rcases List.mem_cons.mp hc with hc | hc
        · subst hc
          simp only [List.length_take]
          omega
        · have hlen : ((a :: as).drop n).length ≤ f := by
            simp only [List.length_drop, List.length_cons] at *
            omega
          exact ih _ hlen c (by rw [hrest]; exact hc)

theorem foldl_append_mk (l : List (List Char)) (a : List Char) :
    (l.map String.mk).foldl (fun r s => r ++ s) (String.mk a) = String.mk (a ++ l.flatten) := by
  induction l generalizing a with
  | nil => simp
  | cons x xs ih =>
    simp only [List.map_cons, List.foldl_cons]
    have hx : String.mk a ++ String.mk x = String.mk (a ++ x) := rfl
    rw [hx, ih]
    simp

theorem join_map_mk (l : List (List Char)) : String.join (l.map String.mk) = String.mk l.flatten := by
  show (l.map String.mk).foldl (fun r s => r ++ s) "" = _
  have h : ("" : String) = String.mk [] := rfl
  rw [h, foldl_append_mk]
  rfl

theorem mk_toList (s : String) : String.mk s.toList = s := rfl

theorem mk_ne_empty {c : List Char} (h : c ≠ []) : String.mk c ≠ "" := by
  intro he
  exact h (congrArg String.toList he)

/-! ### Claims C9 and C10 -/

/-- C10: for every string `s` and positive chunk size `n`, the chunks of
`_split_text_into_chunks` concatenate back to `s` in order, every chunk
except possibly the last has length exactly `n`, every chunk is nonempty
(and no longer than `n`), and the empty string yields the empty chunk
list. -/
theorem split_chunks_lossless (s : String) (n : Nat) (hn : 0 < n) :
    String.join (split_text_into_chunks s n) = s ∧
    (∀ c ∈ (split_text_into_chunks s n).dropLast, c.length = n) ∧
    (∀ c ∈ split_text_into_chunks s n, c.length ≤ n ∧ c ≠ "") ∧
    (s = "" → split_text_into_chunks s n = []) := by
  refine ⟨?_, ?_, ?_, ?_⟩
  · rw [split_text_into_chunks, join_map_mk, split_text_into_chunks_list,
      chunksFuel_join n hn _ _ (Nat.le_refl _), mk_toList]
  · intro c hc
    rw [split_text_into_chunks, ← List.map_dropLast] at hc
    obtain ⟨c', hc', rfl⟩ := List.mem_map.mp hc
    show c'.length = n
    exact chunksFuel_dropLast n hn _ _ (Nat.le_refl _) c' hc'
  · intro c hc
    rw [split_text_into_chunks] at hc
    obtain ⟨c', hc', rfl⟩ := List.mem_map.mp hc
    obtain ⟨h1, h2⟩ := chunksFuel_mem n hn _ _ c' hc'
    exact ⟨h1, mk_ne_empty h2⟩
  · intro hs
    subst hs
    rfl

/-- C10 witness: `"abcdefgh"` with chunk size 3 splits into
`["abc", "def", "gh"]`. -/
theorem split_chunks_lossless_witness :
    0 < 3 ∧
    (String.join (split_text_into_chunks "abcdefgh" 3) = "abcdefgh" ∧
     (∀ c ∈ (split_text_into_chunks "abcdefgh" 3).dropLast, c.length = 3) ∧
     (∀ c ∈ split_text_into_chunks "abcdefgh" 3, c.length ≤ 3 ∧ c ≠ "") ∧
     ("abcdefgh" = "" → split_text_into_chunks "abcdefgh" 3 = [])) :=
  ⟨by decide, split_chunks_lossless "abcdefgh" 3 (by decide)⟩

theorem toList_ne_nil {s : String} (h : s ≠ "") : s.toList ≠ [] := by
  intro he
  exact h ((mk_toList s).symm.trans (congrArg String.mk he))

/-- C9: the transcript toggle splits its content into consecutive chunks of
at most 2000 characters (losing no text), each chunk becoming its own inline
paragraph block among the toggle's children; when the content is empty the
toggle body is the single-space paragraph instead of an empty children list;
and `_paragraph` replaces an empty body with a single space (no link, no
color key) while a nonempty body keeps its text. -/
theorem transcript_toggle_rendering (heading_text content_text : String) :
    paragraph "" none = Block.paragraph [{ content := " ", link := none }] none ∧
    (∀ s l, s ≠ "" → paragraph s l = Block.paragraph (rich_text_object s l) (some "default")) ∧
    (content_text = "" →
      toggle_block_with_text_content heading_text content_text =
        Block.toggle (rich_text_object heading_text none) "default"
          [Block.paragraph (rich_text_object " " none) none]) ∧
    (content_text ≠ "" →
      toggle_block_with_text_content heading_text content_text =
        Block.toggle (rich_text_object heading_text none) "default"
          ((split_text_into_chunks content_text 2000).map
            (fun chunk => Block.paragraph (rich_text_object chunk none) none)) ∧
      String.join (split_text_into_chunks content_text 2000) = content_text ∧
      ∀ c ∈ split_text_into_chunks content_text 2000, c.length ≤ 2000) := by
  refine ⟨rfl, ?_, ?_, ?_⟩
  · intro s l hs
    unfold paragraph
    rw [if_neg hs]
  · intro hc
    subst hc
    rfl
  · intro hc
    have hchunks : split_text_into_chunks content_text 2000 ≠ [] := by
      unfold split_text_into_chunks split_text_into_chunks_list
      rcases hlist : content_text.toList with _ | ⟨a, as⟩
      · exact absurd hlist (toList_ne_nil hc)
      · simp [chunksFuel]
    refine ⟨?_, ?_, ?_⟩
    · unfold toggle_block_with_text_content
      rw [if_neg hchunks]
    · exact (split_chunks_lossless content_text 2000 (by omega)).1
    · intro c hcm
      exact (((split_chunks_lossless content_text 2000 (by omega)).2.2.1) c hcm).1

/-- C9 witness: concrete nonempty and empty contents. -/
theorem transcript_toggle_rendering_witness :
    ("hello" : String) ≠ "" ∧
    toggle_block_with_text_content "Full Transcript" "hello" =
      Block.toggle (rich_text_object "Full Transcript" none) "default"
        ((split_text_into_chunks "hello" 2000).map
          (fun chunk => Block.paragraph (rich_text_object chunk none) none)) ∧
    toggle_block_with_text_content "Full Transcript" "" =
      Block.toggle (rich_text_object "Full Transcript" none) "default"
        [Block.paragraph (rich_text_object " " none) none] ∧
    paragraph "" none = Block.paragraph [{ content := " ", link := none }] none :=
  ⟨by decide,
   ((transcript_toggle_rendering "Full Transcript" "hello").2.2.2 (by decide)).1,
   (transcript_toggle_rendering "Full Transcript" "").2.2.1 rfl,
   (transcript_toggle_rendering "Full Transcript" "").1⟩

/-! ## Orchestrator (src/orchestrator.py) with input_manager (src/input_manager.py) -/

/-- Portion of the `analyze_transcript` result dictionary the orchestrator
consumes: the `summary` and `action_items` entries (src/orchestrator.py
lines 130, 137, 158-159; the dictionary always carries both keys, so the
`.get` defaults at lines 158-159 are unreachable). -/
structure SummaryData where
  summary : String
  action_items : List String
  deriving Repr, DecidableEq

/-- Argument record of `NotionHandler.create_notion_page` as invoked by the
orchestrator (src/orchestrator.py lines 155-162). -/
structure PublishArgs where
  title : String
  date_iso : String
  summary : String
  action_items : List String
  transcript : String
  source_filename : String
  deriving Repr, DecidableEq

/-- Metadata record returned by `input_manager.get_file_metadata`, restricted
to the only field the orchestrator reads (src/input_manager.py lines 74-80,
src/orchestrator.py line 205). -/
structure FileMeta where
  modification_date_iso : String
  deriving Repr, DecidableEq

/-- Failure modes of `input_manager.get_file_metadata` as distinguished by
the orchestrator's two `except` arms (src/orchestrator.py lines 207-214):
`FileNotFoundError` versus any other exception. -/
inductive MetaError where
  | notFound
  | other (e : String)
  deriving Repr, DecidableEq

/-- One filesystem entry of the scanned folder.  The `pathlib.Path`-derived
attributes the code reads (`str(path)`, `.name`, `.stem`, `.suffix`,
`.is_file()`) are carried as fields, and `meta` records what
`input_manager.get_file_metadata` would report for this entry. -/
structure FileEntry where
  path : String
  name : String
  stem : String
  suffix : String
  is_file : Bool
  meta : Except MetaError FileMeta

/-- The scanned folder: `Path.is_dir()` plus the directory listing
(`Path.iterdir()` order). -/
structure Folder where
  is_dir : Bool
  entries : List FileEntry

/-- Supported audio formats of `input_manager.get_audio_files`
(src/input_manager.py line 5). -/
def SUPPORTED_AUDIO_FORMATS : List String :=
  [".m4a", ".wav", ".mp3", ".aac", ".flac", ".ogg", ".opus"]

/-- Model of `input_manager.get_audio_files` (src/input_manager.py lines
5-33): a missing or non-directory path yields `[]`; otherwise keep the
regular files whose lower-cased suffix is a supported format, in listing
order. -/
def get_audio_files (folder : Folder) : List FileEntry :=
  if !folder.is_dir then []
  else folder.entries.filter
    (fun item => item.is_file && SUPPORTED_AUDIO_FORMATS.contains (pyLower item.suffix))

/-- Per-item outcome dictionary `result` of `process_single_audio_file`
(src/orchestrator.py line 104): this is the spec's `ProcessingOutcome`. -/
structure Outcome where
  file : String
  status : String
  message : String
  url : String
  deriving Repr, DecidableEq

/-- Count of capability invocations made while processing one item, used to
state the "stage not attempted" claims. -/
structure CallLog where
  transcribeCalls : Nat
  analyzeCalls : Nat
  publishCalls : Nat
  deriving Repr, DecidableEq

/-- Capability registry of the orchestrator after `_initialize_services`
(src/orchestrator.py lines 30-36): each service either bound (modeled as an
oracle) or `none`.  The transcription oracle maps `str(audio_path)` to a
transcript or a raised exception; the summarizer oracle maps (transcript,
filename) to the summary data or a raised exception; the Notion oracle maps
the publish arguments to the returned string (URL or error text) or a raised
exception. -/
structure OrchestratorEnv where
  transcription_service : Option (String → Except String String)
  summarizer_service : Option (String → String → Except String SummaryData)
  notion_handler : Option (PublishArgs → Except String String)

/-- Initial per-item record (src/orchestrator.py line 104). -/
def initOutcome (audio : FileEntry) : Outcome :=
  { file := audio.path, status := "pending", message := "", url := "" }

/-- Summarization stage of `process_single_audio_file` (src/orchestrator.py
lines 129-142): a missing summarizer keeps the placeholder
`{"summary": "", "action_items": []}`; a caught analysis exception embeds the
error text into the summary of that placeholder. -/
def analysis_stage (env : OrchestratorEnv) (transcript_text name : String) : SummaryData :=
  match env.summarizer_service with
  | none => { summary := "", action_items := [] }
  | some sz =>
    match sz transcript_text name with
    | .ok d => d
    | .error e => { summary := "[Analysis failed: " ++ e ++ "]", action_items := [] }

/-- Publish arguments assembled at src/orchestrator.py lines 152-162. -/
def publish_args (audio : FileEntry) (notion_date_iso : String)
    (summary_data : SummaryData) (transcript_text : String) : PublishArgs :=
  { title := audio.stem
    date_iso := notion_date_iso
    summary := summary_data.summary
    action_items := summary_data.action_items
    transcript := transcript_text
    source_filename := audio.name }

/-- Publishing stage of `process_single_audio_file` (src/orchestrator.py
lines 144-178): missing handler is an error outcome; a returned string is
classified by the `"https://" in page_url_or_error` check; a raised exception
is caught and recorded in the message.  The second component counts the
`create_notion_page` invocations. -/
def publish_stage (env : OrchestratorEnv) (audio : FileEntry)
    (notion_date_iso : String) (summary_data : SummaryData)
    (transcript_text : String) (result : Outcome) : Outcome × Nat :=
  match env.notion_handler with
  | none =>
    ({ result with
        status := "error",
        message := "NotionHandler not available or failed to initialize. Cannot create page." }, 0)
  | some nh =>
    match nh (publish_args audio notion_date_iso summary_data transcript_text) with
    | .ok page_url_or_error =>
      if pyContains page_url_or_error "https://" then
        ({ result with
            status := "success",
            url := page_url_or_error,
            message := "Successfully processed and uploaded to Notion: " ++ page_url_or_error }, 1)
      else
        ({ result with
            status := "error",
            message := "Failed to create Notion page: " ++ page_url_or_error }, 1)
    | .error e =>
      ({ result with
          status := "error",
          message := "Failed to create Notion page due to unexpected error: " ++ e }, 1)

/-- Model of `Orchestrator.process_single_audio_file` (src/orchestrator.py
lines 99-178), returning the outcome record together with the per-capability
invocation counts. -/
def process_single_audio_file (env : OrchestratorEnv) (audio : FileEntry)
    (notion_date_iso : String) : Outcome × CallLog :=
  let result := initOutcome audio
  match env.transcription_service with
  | none =>
    ({ result with
        status := "error",
        message := "Transcription service not available or failed to initialize." },
     { transcribeCalls := 0, analyzeCalls := 0, publishCalls := 0 })
  | some ts =>
    match ts audio.path with
    | .error e =>
      ({ result with status := "error", message := "Transcription failed: " ++ e },
       { transcribeCalls := 1, analyzeCalls := 0, publishCalls := 0 })
    | .ok transcript_text =>
      if transcript_text = "" ∨ pyStrip transcript_text = "" then
        ({ result with status := "error", message := "Transcription resulted in empty text." },
         { transcribeCalls := 1, analyzeCalls := 0, publishCalls := 0 })
      else
        let summary_data := analysis_stage env transcript_text audio.name
        let aCalls : Nat := if env.summarizer_service.isSome then 1 else 0
        let po := publish_stage env audio notion_date_iso summary_data transcript_text result
        (po.1, { transcribeCalls := 1, analyzeCalls := aCalls, publishCalls := po.2 })

/-- Python truthiness test `if date_mapping and name in date_mapping`
(src/orchestrator.py line 198): `None` and the empty dict are falsy; the
dict is modeled as an association list. -/
def mappingHit (date_mapping : Option (List (String × String))) (name : String) :
    Option String :=
  match date_mapping with
  | none => none
  | some m => if m.isEmpty then none else m.lookup name

/-- Final sanity check of the resolved date (src/orchestrator.py lines
216-219): an empty date string is recorded as an error outcome (`continue`). -/
def dateCheck (audio : FileEntry) (d : String) : Except Outcome String :=
  if d = "" then
    .error { file := audio.path
             status := "error"
             message := "Could not determine date for Notion page."
             url := "" }
  else
    .ok d

/-- Date resolution of the `process_folder` loop body (src/orchestrator.py
lines 196-219): an entry in the (truthy) date mapping wins; otherwise the
date part (before `"T"`) of the file's modification timestamp; a metadata
failure becomes an error outcome (`continue`), with the two `except` arms
producing their distinct messages. -/
def date_for (date_mapping : Option (List (String × String))) (audio : FileEntry) :
    Except Outcome String :=
  match mappingHit date_mapping audio.name with
  | some d => dateCheck audio d
  | none =>
    match audio.meta with
    | .error .notFound =>
      .error { file := audio.path
               status := "error"
               message := "File metadata not found."
               url := "" }
    | .error (.other e) =>
      .error { file := audio.path
               status := "error"
               message := "Error getting metadata date: " ++ e
               url := "" }
    | .ok meta =>
      dateCheck audio ((pySplit meta.modification_date_iso 'T').headD "")

/-- Loop body of `process_folder` for one discovered audio file
(src/orchestrator.py lines 195-222): resolve the date (an error appends an
error outcome and skips the file) and otherwise process the file. -/
def process_item (env : OrchestratorEnv)
    (date_mapping : Option (List (String × String))) (audio : FileEntry) :
    Outcome × CallLog :=
  match date_for date_mapping audio with
  | .error o => (o, { transcribeCalls := 0, analyzeCalls := 0, publishCalls := 0 })
  | .ok notion_page_date_iso => process_single_audio_file env audio notion_page_date_iso

/-- Model of `Orchestrator.process_folder` (src/orchestrator.py lines
180-225): abort with a single sentinel record when no service at all is
bound; otherwise scan the folder and process each discovered file in order,
appending exactly one outcome per file. -/
def process_folder (env : OrchestratorEnv) (folder : Folder)
    (date_mapping : Option (List (String × String))) : List Outcome :=
  if env.transcription_service.isNone && env.notion_handler.isNone &&
      env.summarizer_service.isNone then
    [{ file := ""
       status := "error"
       message := "All services failed to initialize."
       url := "" }]
  else
    let audio_files := get_audio_files folder
    if audio_files.isEmpty then []
    else audio_files.map (fun f => (process_item env date_mapping f).1)

/-! ### Orchestrator lemmas and claims C1, C5, C6, C7, C8 -/

theorem ite_isEmpty_map {α β : Type} (l : List α) (g : α → β) :
    (if l.isEmpty then [] else l.map g) = l.map g := by
  cases l <;> simp

theorem process_single_file_eq (env : OrchestratorEnv) (audio : FileEntry) (d : String) :
    ((process_single_audio_file env audio d).1).file = audio.path := by
  unfold process_single_audio_file publish_stage initOutcome
  repeat' split
  all_goals dsimp only
  all_goals repeat' split
  all_goals rfl

theorem process_item_file_eq (env : OrchestratorEnv)
    (dm : Option (List (String × String))) (audio : FileEntry) :
    ((process_item env dm audio).1).file = audio.path := by
  unfold process_item
  rcases hd : date_for dm audio with o | d
  · show o.file = audio.path
    unfold date_for dateCheck at hd
    repeat' split at hd
    all_goals first
      | (cases hd; rfl)
      | cases hd
  · exact process_single_file_eq env audio d

/-- C1: whenever at least one service is bound (so the run is not aborted up
front), `process_folder` produces exactly the per-item outcomes of the
scanned audio files, in order: one outcome per discovered WorkItem, each
computed by `process_item` from that item alone (so one item's failure at
any stage cannot halt, skip, or corrupt the processing of the others), and
each outcome references its own item's path. -/
theorem folder_one_outcome_per_item (env : OrchestratorEnv) (folder : Folder)
    (dm : Option (List (String × String)))
    (h : env.transcription_service.isSome = true ∨ env.notion_handler.isSome = true ∨
      env.summarizer_service.isSome = true) :
    process_folder env folder dm =
      (get_audio_files folder).map (fun f => (process_item env dm f).1) ∧
    (process_folder env folder dm).length = (get_audio_files folder).length ∧
    ∀ f ∈ get_audio_files folder, ((process_item env dm f).1).file = f.path := by
  obtain ⟨ts, sz, nh⟩ := env
  have hcond : ((Option.isNone ts) && (Option.isNone nh) && (Option.isNone sz)) = false := by
    cases ts <;> cases sz <;> cases nh <;> simp_all
  refine ⟨?_, ?_, ?_⟩
  · show process_folder ⟨ts, sz, nh⟩ folder dm = _
    unfold process_folder
    rw [hcond]
    simp only [Bool.false_eq_true, if_false]
    exact ite_isEmpty_map _ _
  · have heq : process_folder ⟨ts, sz, nh⟩ folder dm =
        (get_audio_files folder).map (fun f => (process_item ⟨ts, sz, nh⟩ dm f).1) := by
      unfold process_folder
      rw [hcond]
      simp only [Bool.false_eq_true, if_false]
      exact ite_isEmpty_map _ _
    rw [heq, List.length_map]
  · intro f _
    exact process_item_file_eq ⟨ts, sz, nh⟩ dm f

/-- Concrete transcription oracle used in witnesses. -/
def wTs : String → Except String String := fun _ => Except.ok "hello transcript"

/-- Concrete Notion oracle used in witnesses: publishing succeeds with a URL. -/
def wNh : PublishArgs → Except String String := fun _ => Except.ok "https://notion.so/p"

/-- Concrete environment used in witnesses: transcription and publishing
bound, no summarizer. -/
def wEnv : OrchestratorEnv :=
  { transcription_service := some wTs
    summarizer_service := none
    notion_handler := some wNh }

/-- Concrete audio file entry used in witnesses. -/
def wAudio : FileEntry :=
  { path := "/in/a.wav"
    name := "a.wav"
    stem := "a"
    suffix := ".wav"
    is_file := true
    meta := Except.ok { modification_date_iso := "2025-06-01T10:00:00+00:00" } }

/-- Concrete transcript artifact entry (`a_notes.txt`) used in witnesses. -/
def wNotes : FileEntry :=
  { path := "/in/a_notes.txt"
    name := "a_notes.txt"
    stem := "a_notes"
    suffix := ".txt"
    is_file := true
    meta := Except.ok { modification_date_iso := "2025-06-01T10:00:00+00:00" } }

/-- Concrete scanned folder used in witnesses: the audio file plus its
transcript artifact. -/
def wFolder : Folder :=
  { is_dir := true, entries := [wAudio, wNotes] }

/-- C1 witness: concrete run over the two-entry folder. -/
theorem folder_one_outcome_per_item_witness :
    process_folder wEnv wFolder none =
      (get_audio_files wFolder).map (fun f => (process_item wEnv none f).1) ∧
    (process_folder wEnv wFolder none).length = (get_audio_files wFolder).length :=
  ⟨(folder_one_outcome_per_item wEnv wFolder none (Or.inl rfl)).1,
   (folder_one_outcome_per_item wEnv wFolder none (Or.inl rfl)).2.1⟩

/-- C6: with no transcription capability bound, `process_single_audio_file`
returns the error outcome with exactly the message "Transcription service
not available or failed to initialize." and performs no transcription,
analysis, or publishing call. -/
theorem missing_transcription_service (env : OrchestratorEnv) (audio : FileEntry)
    (d : String) (h : env.transcription_service = none) :
    process_single_audio_file env audio d =
      ({ file := audio.path
         status := "error"
         message := "Transcription service not available or failed to initialize."
         url := "" },
       { transcribeCalls := 0, analyzeCalls := 0, publishCalls := 0 }) := by
  unfold process_single_audio_file initOutcome
  rw [h]

/-- Concrete all-unbound environment used in the C6 witness. -/
def wEnvNoTs : OrchestratorEnv :=
  { transcription_service := none
    summarizer_service := none
    notion_handler := some wNh }

/-- C6 witness. -/
theorem missing_transcription_service_witness :
    process_single_audio_file wEnvNoTs wAudio "2025-01-01" =
      ({ file := "/in/a.wav"
         status := "error"
         message := "Transcription service not available or failed to initialize."
         url := "" },
       { transcribeCalls := 0, analyzeCalls := 0, publishCalls := 0 }) :=
  missing_transcription_service wEnvNoTs wAudio "2025-01-01" rfl

theorem process_single_unfold (env : OrchestratorEnv) (audio : FileEntry) (d : String)
    (ts : String → Except String String) (t : String)
    (hts : env.transcription_service = some ts)
    (ht : ts audio.path = Except.ok t)
    (hne : ¬(t = "" ∨ pyStrip t = "")) :
    process_single_audio_file env audio d =
      ((publish_stage env audio d (analysis_stage env t audio.name) t (initOutcome audio)).1,
       { transcribeCalls := 1
         analyzeCalls := if env.summarizer_service.isSome then 1 else 0
         publishCalls :=
           (publish_stage env audio d (analysis_stage env t audio.name) t (initOutcome audio)).2 }) := by
  simp only [process_single_audio_file, hts, ht, hne, if_false]

/-- C5: once transcription produced nonempty text and a Notion handler is
bound, the per-item outcome is classified by the `"https://" in s` check on
the string returned by `create_notion_page`: a URL-bearing string is a
success outcome with that string as the URL; any other string is an error
outcome whose message records that string; a raised exception is caught and
its text recorded in the outcome message (the per-item function is total, so
nothing propagates out of the folder loop). -/
theorem publish_reference_check (env : OrchestratorEnv) (audio : FileEntry) (d : String)
    (ts : String → Except String String) (t : String)
    (nh : PublishArgs → Except String String)
    (hts : env.transcription_service = some ts)
    (ht : ts audio.path = Except.ok t)
    (hne : ¬(t = "" ∨ pyStrip t = ""))
    (hnh : env.notion_handler = some nh) :
    (∀ s, nh (publish_args audio d (analysis_stage env t audio.name) t) = Except.ok s →
      pyContains s "https://" = true →
      (process_single_audio_file env audio d).1 =
        { file := audio.path
          status := "success"
          message := "Successfully processed and uploaded to Notion: " ++ s
          url := s }) ∧
    (∀ s, nh (publish_args audio d (analysis_stage env t audio.name) t) = Except.ok s →
      pyContains s "https://" = false →
      (process_single_audio_file env audio d).1 =
        { file := audio.path
          status := "error"
          message := "Failed to create Notion page: " ++ s
          url := "" }) ∧
    (∀ e, nh (publish_args audio d (analysis_stage env t audio.name) t) = Except.error e →
      (process_single_audio_file env audio d).1 =
        { file := audio.path
          status := "error"
          message := "Failed to create Notion page due to unexpected error: " ++ e
          url := "" }) := by
  rw [process_single_unfold env audio d ts t hts ht hne]
  refine ⟨?_, ?_, ?_⟩
  · intro s h1 h2
    simp only [publish_stage, hnh, h1, h2, if_true]
    rfl
  · intro s h1 h2
    simp only [publish_stage, hnh, h1, h2, Bool.false_eq_true, if_false]
    rfl
  · intro e h1
    simp only [publish_stage, hnh, h1]
    rfl

/-- C5 witness: concrete successful publish. -/
theorem publish_reference_check_witness :
    (process_single_audio_file wEnv wAudio "2025-01-01").1 =
      { file := "/in/a.wav"
        status := "success"
        message := "Successfully processed and uploaded to Notion: https://notion.so/p"
        url := "https://notion.so/p" } :=
  (publish_reference_check wEnv wAudio "2025-01-01" wTs "hello transcript" wNh
    rfl rfl (by decide) rfl).1 "https://notion.so/p" rfl (by decide)

/-- Degraded environment used by the C7 success conjunct and witness:
transcription and publishing bound, no summarizer, publish returns a URL. -/
def wDegradedEnv : OrchestratorEnv :=
  { transcription_service := some wTs
    summarizer_service := none
    notion_handler := some wNh }

/-- Summarizer oracle that always raises, used by C7's witness. -/
def wBoomSz : String → String → Except String SummaryData :=
  fun _ _ => Except.error "boom"

/-- Environment whose summarizer raises, used by C7's witness. -/
def wErrSzEnv : OrchestratorEnv :=
  { transcription_service := some wTs
    summarizer_service := some wBoomSz
    notion_handler := some wNh }

/-- C7: after a successful nonempty transcription, (a) a summarizer
exception is caught and replaced by the placeholder whose summary embeds the
error text, and the item's outcome is exactly the publishing stage applied
to that placeholder (so publishing still proceeds and an analysis problem
alone never fails the item); (b) with no summarizer bound, the item proceeds
to publishing with the all-empty placeholder; (c) whenever a Notion handler
is bound, the publish call is made exactly once; and (d) a concrete
summarizer-free run still ends as a success. -/
theorem analysis_degradation (env : OrchestratorEnv) (audio : FileEntry) (d : String)
    (ts : String → Except String String) (t : String)
    (hts : env.transcription_service = some ts)
    (ht : ts audio.path = Except.ok t)
    (hne : ¬(t = "" ∨ pyStrip t = "")) :
    (∀ sz e, env.summarizer_service = some sz → sz t audio.name = Except.error e →
      analysis_stage env t audio.name =
        { summary := "[Analysis failed: " ++ e ++ "]", action_items := [] } ∧
      (process_single_audio_file env audio d).1 =
        (publish_stage env audio d
          { summary := "[Analysis failed: " ++ e ++ "]", action_items := [] } t
          (initOutcome audio)).1) ∧
    (env.summarizer_service = none →
      analysis_stage env t audio.name = { summary := "", action_items := [] } ∧
      (process_single_audio_file env audio d).1 =
        (publish_stage env audio d { summary := "", action_items := [] } t
          (initOutcome audio)).1) ∧
    (∀ nh, env.notion_handler = some nh →
      (process_single_audio_file env audio d).2.publishCalls = 1) ∧
    (process_single_audio_file wDegradedEnv wAudio "2025-01-01").1.status = "success" := by
  refine ⟨?_, ?_, ?_, rfl⟩
  · intro sz e hsz he
    have ha : analysis_stage env t audio.name =
        { summary := "[Analysis failed: " ++ e ++ "]", action_items := [] } := by
      simp only [analysis_stage, hsz, he]
    refine ⟨ha, ?_⟩
    rw [process_single_unfold env audio d ts t hts ht hne, ha]
  · intro hsz
    have ha : analysis_stage env t audio.name = { summary := "", action_items := [] } := by
      simp only [analysis_stage, hsz]
    refine ⟨ha, ?_⟩
    rw [process_single_unfold env audio d ts t hts ht hne, ha]
  · intro nh hnh
    rw [process_single_unfold env audio d ts t hts ht hne]
    show (publish_stage env audio d (analysis_stage env t audio.name) t (initOutcome audio)).2 = 1
    simp only [publish_stage, hnh]
    rcases nh (publish_args audio d (analysis_stage env t audio.name) t) with s | s
    · rfl
    · dsimp only
      split <;> rfl

/-- C7 witness: the summarizer-free environment proceeds with the empty
placeholder and still succeeds; the raising summarizer yields the
error-embedding placeholder while its outcome equals the publish stage on
that placeholder. -/
theorem analysis_degradation_witness :
    (analysis_stage wDegradedEnv "hello transcript" "a.wav" =
      { summary := "", action_items := [] } ∧
     (process_single_audio_file wDegradedEnv wAudio "2025-01-01").1 =
       (publish_stage wDegradedEnv wAudio "2025-01-01"
         { summary := "", action_items := [] } "hello transcript"
         (initOutcome wAudio)).1) ∧
    (analysis_stage wErrSzEnv "hello transcript" "a.wav" =
      { summary := "[Analysis failed: boom]", action_items := [] } ∧
     (process_single_audio_file wErrSzEnv wAudio "2025-01-01").2.publishCalls = 1) ∧
    (process_single_audio_file wDegradedEnv wAudio "2025-01-01").1.status = "success" :=
  ⟨(analysis_degradation wDegradedEnv wAudio "2025-01-01" wTs "hello transcript"
      rfl rfl (by decide)).2.1 rfl,
   ⟨((analysis_degradation wErrSzEnv wAudio "2025-01-01" wTs "hello transcript"
      rfl rfl (by decide)).1 wBoomSz "boom" rfl rfl).1,
    (analysis_degradation wErrSzEnv wAudio "2025-01-01" wTs "hello transcript"
      rfl rfl (by decide)).2.2.1 wNh rfl⟩,
   (analysis_degradation wDegradedEnv wAudio "2025-01-01" wTs "hello transcript"
      rfl rfl (by decide)).2.2.2⟩

/-- C8: the publish date of an item in the `process_folder` loop is resolved
with precedence (a) a (truthy) date-mapping entry for the file's name wins
and the item is processed with exactly that date, whatever the file's
modification metadata says; (b) otherwise the date part (before `"T"`) of
the modification timestamp is used; (c) if metadata retrieval fails, the
item is recorded as an error outcome and skipped: no transcription,
analysis, or publishing call is made for it. -/
theorem date_resolution_precedence (env : OrchestratorEnv)
    (dm : Option (List (String × String))) (audio : FileEntry) :
    (∀ d, mappingHit dm audio.name = some d → d ≠ "" →
      process_item env dm audio = process_single_audio_file env audio d) ∧
    (∀ m, mappingHit dm audio.name = none → audio.meta = Except.ok m →
      (pySplit m.modification_date_iso 'T').headD "" ≠ "" →
      process_item env dm audio =
        process_single_audio_file env audio
          ((pySplit m.modification_date_iso 'T').headD "")) ∧
    (∀ err, mappingHit dm audio.name = none → audio.meta = Except.error err →
      (process_item env dm audio).1.status = "error" ∧
      (process_item env dm audio).2 =
        { transcribeCalls := 0, analyzeCalls := 0, publishCalls := 0 }) := by
  refine ⟨?_, ?_, ?_⟩
  · intro d hmap hd
    simp only [process_item, date_for, hmap, dateCheck, hd, if_false]
  · intro m hmap hm hd
    simp only [process_item, date_for, hmap, hm, dateCheck, hd, if_false]
  · intro err hmap herr
    cases err with
    | notFound => simp only [process_item, date_for, hmap, herr]; exact ⟨trivial, trivial⟩
    | other e => simp only [process_item, date_for, hmap, herr]; exact ⟨trivial, trivial⟩

/-- Date mapping used by the C8 witness. -/
def wDm : Option (List (String × String)) := some [("a.wav", "2025-01-01")]

/-- Audio entry whose metadata retrieval fails, used by the C8 witness. -/
def wBadMeta : FileEntry :=
  { path := "/in/b.wav"
    name := "b.wav"
    stem := "b"
    suffix := ".wav"
    is_file := true
    meta := Except.error MetaError.notFound }

/-- C8 witness: the mapping entry `("a.wav", "2025-01-01")` wins over the
modification date `2025-06-01`; without a mapping the modification date part
is used; failing metadata yields a skipped error outcome. -/
theorem date_resolution_precedence_witness :
    process_item wEnv wDm wAudio = process_single_audio_file wEnv wAudio "2025-01-01" ∧
    process_item wEnv none wAudio = process_single_audio_file wEnv wAudio "2025-06-01" ∧
    ((process_item wEnv none wBadMeta).1.status = "error" ∧
     (process_item wEnv none wBadMeta).2 =
       { transcribeCalls := 0, analyzeCalls := 0, publishCalls := 0 }) :=
  ⟨(date_resolution_precedence wEnv wDm wAudio).1 "2025-01-01" rfl (by decide),
   (date_resolution_precedence wEnv none wAudio).2.1
     { modification_date_iso := "2025-06-01T10:00:00+00:00" } rfl rfl (by decide),
   (date_resolution_precedence wEnv none wBadMeta).2.2 MetaError.notFound rfl rfl⟩

/-! ## Transcriber (src/transcriber.py) and claim C2 -/

/-- Filesystem state of the Transcriber pipeline: the file names present in
`recordings/`, `transcripts/` and `processed/` (src/transcriber.py lines
8-11). -/
structure TranscriberFS where
  recordings : List String
  transcripts : List String
  processed : List String
  deriving Repr, DecidableEq

/-- Model of `Transcriber.process_recording` (src/transcriber.py lines
38-62).  `convert` is the ffmpeg oracle (`convert_to_wav`; an error is a
`CalledProcessError`), `transcribe_audio` the Whisper oracle; both are
applied to the derived wav name.  Returns the new filesystem state together
with the number of conversion calls and of transcription calls.  The guard
at lines 44-46 skips any video whose `<stem>_notes.txt` transcript already
exists; the two `except` arms at lines 59-62 leave the written wav in place
and skip the moves. -/
def process_recording (convert : String → Except String Unit)
    (transcribe_audio : String → Except String String)
    (fs : TranscriberFS) (video : FileEntry) : TranscriberFS × Nat × Nat :=
  let base_name := video.stem
  let wav_name := base_name ++ ".wav"
  let transcript_name := base_name ++ "_notes.txt"
  if transcript_name ∈ fs.transcripts then
    (fs, 0, 0)
  else
    match convert wav_name with
    | .error _ => (fs, 1, 0)
    | .ok _ =>
      let fs1 := { fs with recordings := fs.recordings ++ [wav_name] }
      match transcribe_audio wav_name with
      | .error _ => (fs1, 1, 1)
      | .ok _ =>
        ({ recordings :=
             fs1.recordings.filter (fun n => !(n == video.name) && !(n == wav_name))
           transcripts := fs1.transcripts ++ [transcript_name]
           processed := fs1.processed ++ [video.name, wav_name] }, 1, 1)

/-- C2, counterexample: the Orchestrator pipeline named by the claim has no
transcript-artifact check at all.  Concretely, in a folder holding `a.wav`
together with its transcript artifact `a_notes.txt` (the `<stem>_notes.txt`
file for `a.wav`), the scan discovers `a.wav` and processing it invokes the
transcription capability once — not zero times as the claim requires
(`process_single_audio_file` never reads the filesystem, so the artifact's
presence cannot suppress the call). -/
theorem orchestrator_reinvokes_transcription_cex :
    wAudio.stem ++ "_notes.txt" = wNotes.name ∧
    wNotes ∈ wFolder.entries ∧
    get_audio_files wFolder = [wAudio] ∧
    (process_item wEnv none wAudio).2.transcribeCalls = 1 := by
  refine ⟨rfl, ?_, rfl, rfl⟩
  show wNotes ∈ [wAudio, wNotes]
  exact List.mem_cons_of_mem _ (List.mem_singleton.mpr rfl)

/-- C2, amended: the transcript-existence skip lives in the Transcriber
pipeline, not in the Orchestrator: when `<stem>_notes.txt` is already
present in the transcripts directory, `Transcriber.process_recording`
returns immediately — no conversion call, no transcription call, and the
filesystem state is unchanged. -/
theorem transcriber_skip_existing_transcript (convert : String → Except String Unit)
    (transcribe_audio : String → Except String String)
    (fs : TranscriberFS) (video : FileEntry)
    (h : video.stem ++ "_notes.txt" ∈ fs.transcripts) :
    process_recording convert transcribe_audio fs video = (fs, 0, 0) := by
  simp only [process_recording, h, if_pos]

/-- Concrete transcriber state whose transcripts directory already holds
`a_notes.txt`, used by the C2 witness. -/
def wTranscriberFS : TranscriberFS :=
  { recordings := ["a.mp4"]
    transcripts := ["a_notes.txt"]
    processed := [] }

/-- Concrete video entry used by the C2 witness. -/
def wVideo : FileEntry :=
  { path := "/rec/a.mp4"
    name := "a.mp4"
    stem := "a"
    suffix := ".mp4"
    is_file := true
    meta := Except.ok { modification_date_iso := "2025-06-01T10:00:00+00:00" } }

/-- C2 witness: re-running `process_recording` on `a.mp4` with
`a_notes.txt` already present changes nothing and never invokes the
oracles. -/
theorem transcriber_skip_existing_transcript_witness :
    process_recording (fun _ => Except.ok ()) (fun _ => Except.ok "text")
      wTranscriberFS wVideo = (wTranscriberFS, 0, 0) :=
  transcriber_skip_existing_transcript (fun _ => Except.ok ()) (fun _ => Except.ok "text")
    wTranscriberFS wVideo (by decide)
